import Mathlib

/-!
# Verification of the multi-analyzer SEO scoring pipeline

Shallow embedding of the scoring core of the `amplify2.1` repository
(`app/services/analyzers/*.py` and `app/services/analyzer.py`) together with
proofs about the analyzer scores, the recommendation aggregation, the
main-content selection heuristic, the viewport check, and the keyword
placement analysis.

Conventions of the embedding:
* Python `int`/`float` arithmetic on scores is modelled with `ℤ` and exact
  rationals `ℚ`; the Python `round` is modelled by the Mathlib `round` (the two
  agree away from exact halves, and every property proved here is insensitive
  to the tie-breaking rule).
* A parsed HTML page (`BeautifulSoup` tree) is modelled by the inductive tree
  `Elem`; `find`-style queries are depth-first pre-order searches over the
  descendants, as in the library used by the source.
* Python exceptions inside one analyzer are modelled with `Except`: the
  analyzer body either produces its payload or an error message, and
  `run_analyzer` performs the `try/except` conversion done at each
  analyzer boundary.
-/

/-! ## String utilities mirroring the Python primitives used by the source -/

/-- Python `str.lower` restricted to the alphabets that actually occur in the
string literals of the source: ASCII letters and Cyrillic letters. -/
def pyLowerChar (c : Char) : Char :=
  if 'A' ≤ c ∧ c ≤ 'Z' then Char.ofNat (c.toNat + 32)
  else if 'А' ≤ c ∧ c ≤ 'Я' then Char.ofNat (c.toNat + 32)
  else if c = 'Ё' then 'ё'
  else c

/-- Python `str.lower` on a whole string. -/
def pyLower (s : String) : String := String.mk (s.data.map pyLowerChar)

/-- Python `str.split()` with no argument: split on whitespace runs, dropping
empty pieces. -/
def pySplit (s : String) : List String :=
  (s.split Char.isWhitespace).filter (fun w => w ≠ "")

/-- Whether the list `p` occurs at the start of `t`. -/
def startsList : List Char → List Char → Bool
  | [], _ => true
  | _ :: _, [] => false
  | p :: ps, t :: ts => p == t && startsList ps ts

/-- Whether the list `p` occurs contiguously anywhere in `t`. -/
def containsList (p : List Char) : List Char → Bool
  | [] => p.isEmpty
  | t :: ts => startsList p (t :: ts) || containsList p ts

/-- The Python test `needle in hay` on strings. -/
def containsSub (hay needle : String) : Bool := containsList needle.data hay.data

/-- Collapse whitespace runs to a single space, mapping every whitespace
character to a plain space (the effect of the whitespace-collapsing
`re.sub` used throughout the source). -/
def collapseChars : List Char → List Char
  | [] => []
  | [c] => [if c.isWhitespace then ' ' else c]
  | c1 :: c2 :: cs =>
    if c1.isWhitespace && c2.isWhitespace then collapseChars (c2 :: cs)
    else (if c1.isWhitespace then ' ' else c1) :: collapseChars (c2 :: cs)

/-- The whitespace-collapsing `re.sub` on a whole string. -/
def collapseWs (s : String) : String := String.mk (collapseChars s.data)

/-- Keep the first occurrence of every element, in order (the iteration
order of a Python `dict` built by successive insertions). -/
def dedupAux (seen : List String) : List String → List String
  | [] => []
  | x :: xs => if seen.contains x then dedupAux seen xs else x :: dedupAux (x :: seen) xs

/-- First-occurrence deduplication. -/
def dedupKeepFirst (l : List String) : List String := dedupAux [] l

/-! ## The parsed document tree (`BeautifulSoup` adapter) -/

/-- A parsed HTML tree: text nodes and element nodes with an attribute
association list. The whole soup is the root `node`. -/
inductive Elem where
  | text (s : String)
  | node (tag : String) (attrs : List (String × String)) (children : List Elem)
deriving Repr

/-- The attribute value of an element node, if any. -/
def Elem.attr (e : Elem) (name : String) : Option String :=
  match e with
  | .text _ => none
  | .node _ attrs _ => attrs.lookup name

/-- Direct children of a node. -/
def Elem.childrenOf : Elem → List Elem
  | .text _ => []
  | .node _ _ cs => cs

/-- The multi-valued `class` attribute, split on whitespace as the parser
does. -/
def Elem.classes (e : Elem) : List String :=
  pySplit ((e.attr "class").getD "")

/-- Whether an element node carries the given tag name. -/
def Elem.hasTag (t : String) : Elem → Bool
  | .text _ => false
  | .node tag _ _ => tag == t

mutual
/-- Depth-first pre-order search for the first node satisfying `p`,
testing the node itself first. -/
def findFirst (p : Elem → Bool) : Elem → Option Elem
  | .text s => if p (.text s) then some (.text s) else none
  | .node t a cs =>
    if p (.node t a cs) then some (.node t a cs) else findFirstList p cs

/-- Search a forest left to right. -/
def findFirstList (p : Elem → Bool) : List Elem → Option Elem
  | [] => none
  | c :: cs =>
    match findFirst p c with
    | some e => some e
    | none => findFirstList p cs
end

/-- The query `soup.find(tag)`: first descendant with the tag name. -/
def soupFindTag (soup : Elem) (t : String) : Option Elem :=
  findFirstList (Elem.hasTag t) soup.childrenOf

/-- The query `soup.find(id=v)`: first descendant whose `id` attribute equals `v`. -/
def soupFindId (soup : Elem) (v : String) : Option Elem :=
  findFirstList (fun e => e.attr "id" == some v) soup.childrenOf

/-- The query `soup.find(class_=v)`: first descendant one of whose classes is `v`. -/
def soupFindClass (soup : Elem) (v : String) : Option Elem :=
  findFirstList (fun e => (e.classes).contains v) soup.childrenOf

/-! ## ContentQualityAnalyzer._extract_main_content -/

/-- The method `ContentQualityAnalyzer._extract_main_content`, translated from the
source: build the candidate list, return the first hit, otherwise fall back
to `soup.body or soup`. -/
def extract_main_content (soup : Elem) : Elem :=
  let content_candidates : List (Option Elem) :=
    [soupFindTag soup "main",
     soupFindId soup "content",
     soupFindId soup "main-content",
     soupFindClass soup "content",
     soupFindClass soup "main-content",
     soupFindTag soup "article"]
  match content_candidates.findSome? id with
  | some candidate => candidate
  | none =>
    match soupFindTag soup "body" with
    | some b => b
    | none => soup

/-- The wording used by the specification of the main-content heuristic: try, in
exactly this order, `<main>`, id `content`, id `main-content`, class
`content`, class `main-content`, `<article>`, take the first present
candidate; fall back to `<body>`, then to the whole document. -/
def extract_main_content_spec (soup : Elem) : Elem :=
  match soupFindTag soup "main" with
  | some e => e
  | none =>
  match soupFindId soup "content" with
  | some e => e
  | none =>
  match soupFindId soup "main-content" with
  | some e => e
  | none =>
  match soupFindClass soup "content" with
  | some e => e
  | none =>
  match soupFindClass soup "main-content" with
  | some e => e
  | none =>
  match soupFindTag soup "article" with
  | some e => e
  | none =>
  match soupFindTag soup "body" with
  | some b => b
  | none => soup

/-! ## KeywordOptimizationAnalyzer._extract_text_content

The source first runs `for script in soup(["script", "style", "noscript",
"iframe", "header", "footer", "nav"]): script.extract()`, which removes every
such element (with its whole subtree) from the shared soup, and only then
reads the text.  The extraction therefore returns both the text and the
tree the soup has been left in. -/

/-- The tag names removed by `_extract_text_content`. -/
def bannedTags : List String :=
  ["script", "style", "noscript", "iframe", "header", "footer", "nav"]

mutual
/-- Remove every element with a tag in `bannedTags`, recursively (the net
effect of extracting all `find_all` hits of those tags). -/
def stripBanned : Elem → Elem
  | .text s => .text s
  | .node t a cs => .node t a (stripBannedList cs)

/-- Version of `stripBanned` over a forest. -/
def stripBannedList : List Elem → List Elem
  | [] => []
  | .text s :: cs => .text s :: stripBannedList cs
  | .node t a cs2 :: cs =>
    if bannedTags.contains t then stripBannedList cs
    else .node t a (stripBannedList cs2) :: stripBannedList cs
end

mutual
/-- Whether the tree contains no element with a tag in `bannedTags`. -/
def bannedFree : Elem → Bool
  | .text _ => true
  | .node t _ cs => !bannedTags.contains t && bannedFreeList cs

/-- Version of `bannedFree` over a forest. -/
def bannedFreeList : List Elem → Bool
  | [] => true
  | c :: cs => bannedFree c && bannedFreeList cs
end

mutual
/-- The text-node strings of a tree in document order. -/
def textStrings : Elem → List String
  | .text s => [s]
  | .node _ _ cs => textStringsList cs

/-- Version of `textStrings` over a forest. -/
def textStringsList : List Elem → List String
  | [] => []
  | c :: cs => textStrings c ++ textStringsList cs
end

/-- The `soup.get_text` call with a space separator and stripping: strip each text node, drop
the empty ones, join with single spaces. -/
def get_text (e : Elem) : String :=
  String.intercalate " " (((textStrings e).map String.trim).filter (fun s => s ≠ ""))

/-- The method `KeywordOptimizationAnalyzer._extract_text_content`: returns the cleaned
visible text, and the tree the shared soup has been mutated into. -/
def extract_text_content (soup : Elem) : String × Elem :=
  let soup2 := stripBanned soup
  (collapseWs (get_text soup2), soup2)

mutual
/-- Total number of nodes (elements and text nodes) in a tree. -/
def nodeCount : Elem → ℕ
  | .text _ => 1
  | .node _ _ cs => 1 + nodeCountList cs

/-- Version of `nodeCount` over a forest. -/
def nodeCountList : List Elem → ℕ
  | [] => 0
  | c :: cs => nodeCount c + nodeCountList cs
end

/-! ## MetaAnalyzer -/

/-- Issue text for a missing title. -/
def titleMissingIssue : String := "Отсутствует title. Добавьте заголовок страницы."

/-- Issue text for a title shorter than 10 characters. -/
def titleTooShortIssue : String := "Заголовок слишком короткий (менее 10 символов)."

/-- Issue text for a title longer than 60 characters. -/
def titleTooLongIssue : String :=
  "Заголовок слишком длинный (более 60 символов). Сократите его для лучшего SEO."

/-- Issue text for keyword stuffing in the title (the f-string of the
source, with the repeated word interpolated). -/
def titleStuffingIssue (word : String) : String :=
  "Возможный спам ключевых слов в заголовке (повторение \x27" ++ word ++ "\x27)."

/-- The first word of length more than 3 repeated more than twice in the
title, provided the title has more than 4 words (the source iterates the
insertion-ordered `word_counts` dict and breaks at the first hit). -/
def stuffedWord (words : List String) : Option String :=
  let big := words.filter (fun w => w.length > 3)
  (dedupKeepFirst big).find? (fun w => decide (big.count w > 2) && decide (words.length > 4))

/-- The brand separators recognised in titles. -/
def commonSeparators : List String := [" | ", " - ", " – ", " — ", " :: ", " > "]

/-- Brand detection: the first separator occurring in the title classifies
the brand as a prefix (first part shorter than 20 characters) or suffix. -/
def brandPosition (title : String) : Option String :=
  match commonSeparators.find? (fun sep => containsSub title sep) with
  | none => none
  | some sep =>
    let parts := title.splitOn sep
    if parts.length > 1 ∧ ((parts.headD "").length < 20) then some "prefix" else some "suffix"

/-- The result dictionary of `MetaAnalyzer._analyze_title`. -/
structure TitleAnalysis where
  content : Option String
  length : ℕ
  is_optimized : Bool
  issues : List String
  has_brand : Bool := false
  brand_position : Option String := none
deriving Repr

/-- The method `MetaAnalyzer._analyze_title`, with the soup query
`soup.title.string if soup.title else None` abstracted into the
`Option String` argument.  An empty string is falsy in Python, so it takes
the missing-title branch. -/
def analyze_title (title : Option String) : TitleAnalysis :=
  match title with
  | none => { content := none, length := 0, is_optimized := false, issues := [titleMissingIssue] }
  | some t =>
    if t.length = 0 then
      { content := none, length := 0, is_optimized := false, issues := [titleMissingIssue] }
    else
      let lengthIssues :=
        if t.length < 10 then [titleTooShortIssue]
        else if t.length > 60 then [titleTooLongIssue]
        else []
      let words := pySplit (pyLower t)
      let stuffingIssues :=
        match stuffedWord words with
        | some w => [titleStuffingIssue w]
        | none => []
      let issues := lengthIssues ++ stuffingIssues
      { content := some t, length := t.length, is_optimized := issues.isEmpty,
        issues := issues, has_brand := (brandPosition t).isSome,
        brand_position := brandPosition t }

/-- The observations `MetaAnalyzer.analyze` feeds into its score: the issue
lists of the title and description analyses and the presence booleans of the
remaining components. -/
structure MetaObservations where
  title_issues : List String
  description_issues : List String
  has_og_tags : Bool
  has_twitter_tags : Bool
  has_favicon : Bool
  has_lang_attribute : Bool

/-- The `meta_score` computation of `MetaAnalyzer.analyze` (lines 79-87):
a sum of weighted boolean components. -/
def meta_score (o : MetaObservations) : ℤ :=
  let score_components : List ℤ :=
    [if o.title_issues.isEmpty then 25 else 0,
     if o.description_issues.isEmpty then 25 else 0,
     if o.has_og_tags then 15 else 0,
     if o.has_twitter_tags then 10 else 0,
     if o.has_favicon then 10 else 0,
     if o.has_lang_attribute then 15 else 0]
  score_components.sum

/-! ## ContentQualityAnalyzer: readability -/

/-- One step of the vowel-group count: a vowel (`aeiouy`) not preceded by a
vowel starts a new group. -/
def vowelGroups : List Char → Bool → ℕ
  | [], _ => 0
  | c :: cs, prev =>
    let isV := "aeiouy".contains c
    (if isV && !prev then 1 else 0) + vowelGroups cs isV

/-- The method `ContentQualityAnalyzer._count_syllables`: lower-case, strip a trailing
`e`, then `es`, then `ed`, count vowel-group starts, at least 1. -/
def count_syllables (word : String) : ℕ :=
  let w := pyLower word
  let w := if w.endsWith "e" then w.dropRight 1 else w
  let w := if w.endsWith "es" then w.dropRight 2 else w
  let w := if w.endsWith "ed" then w.dropRight 2 else w
  max 1 (vowelGroups w.data false)

/-- The method `ContentQualityAnalyzer._calculate_readability_score`: the percentage of
words with at least 3 syllables, inverted to a 0-100 scale. -/
def calculate_readability_score (text : String) : ℤ :=
  let words := pySplit text
  if words.isEmpty then 0
  else
    let complex_words := (words.filter (fun w => decide (count_syllables w ≥ 3))).length
    let complex_percentage : ℚ := (complex_words : ℚ) / (max 1 words.length : ℕ)
    round ((100 : ℚ) - complex_percentage * 100)

/-! ## TechnicalSEOAnalyzer -/

/-- The counts `TechnicalSEOAnalyzer._check_loading_optimization` extracts
from the soup: resource-hint links, scripts with `src`, scripts with
`async`/`defer`, and `loading=lazy` attributes. -/
structure LoadingObservations where
  preload_count : ℕ
  prefetch_count : ℕ
  dns_prefetch_count : ℕ
  total_scripts : ℕ
  async_scripts : ℕ
  defer_scripts : ℕ
  lazy_count : ℕ

/-- The `optimization_score` of
`TechnicalSEOAnalyzer._check_loading_optimization`: hints 40%, share of
`async`/`defer` scripts 40%, lazy loading 20%, rounded. -/
def loading_optimization_score (o : LoadingObservations) : ℤ :=
  let has_resource_hints : Bool :=
    decide (o.preload_count > 0) || decide (o.prefetch_count > 0) ||
      decide (o.dns_prefetch_count > 0)
  let optimized_scripts := o.async_scripts + o.defer_scripts
  let script_score : ℚ :=
    min 100 (((optimized_scripts : ℚ) / (max 1 o.total_scripts : ℕ)) * 100)
  round ((if has_resource_hints then (40 : ℚ) else 0) + script_score * (2/5) +
    (if o.lazy_count > 0 then (20 : ℚ) else 0))

/-- The `link_score` of `TechnicalSEOAnalyzer._analyze_internal_links`:
at least 3 unique internal links 60%, some external link 20%, no orphaned
heading 20%. -/
def link_score (unique_internal external_count orphaned_count : ℕ) : ℤ :=
  (if unique_internal ≥ 3 then 60 else 0) + (if external_count > 0 then 20 else 0) +
    (if orphaned_count = 0 then 20 else 0)

/-- The observations `TechnicalSEOAnalyzer.analyze` feeds into its score. -/
structure TechnicalObservations where
  has_canonical : Bool
  has_robots_tag : Bool
  url_issues : List String
  has_schema : Bool
  loading : LoadingObservations
  is_https : Bool
  unique_internal : ℕ
  external_count : ℕ
  orphaned_count : ℕ

/-- The `technical_score` computation of `TechnicalSEOAnalyzer.analyze`
(lines 90-99): canonical 15%, robots 10%, clean URL 15%, schema 15%,
loading optimization 20% of its own 0-100, HTTPS 15%, link score 10% of its
own 0-100, rounded. -/
def technical_score (o : TechnicalObservations) : ℤ :=
  let score_components : List ℚ :=
    [if o.has_canonical then 15 else 0,
     if o.has_robots_tag then 10 else 0,
     if o.url_issues.isEmpty then 15 else 0,
     if o.has_schema then 15 else 0,
     ((loading_optimization_score o.loading : ℚ) / 100) * 20,
     if o.is_https then 15 else 0,
     ((link_score o.unique_internal o.external_count o.orphaned_count : ℚ) / 100) * 10]
  round score_components.sum

/-! ## MobileAnalyzer -/

/-- The result dictionary of `MobileAnalyzer._check_viewport`.   When the
viewport tag is missing the source returns a dictionary without the
`has_width`/`has_initial_scale`/`prevents_zooming` keys; later reads use
`.get(_, False)`, so the absent keys are modelled as `false`. -/
structure ViewportResult where
  has_viewport : Bool
  content : Option String
  has_width : Bool := false
  has_initial_scale : Bool := false
  prevents_zooming : Bool := false
  is_responsive : Bool
  issues : List String := []
deriving Repr

/-- The method `MobileAnalyzer._check_viewport`, with the soup query abstracted into
the argument: `none` means no `<meta name=viewport>` tag, `some c` means the
tag is present with content attribute `c` (`c = ""` when the attribute is
absent, matching the `.get` call with default empty string). -/
def check_viewport (viewport_content : Option String) : ViewportResult :=
  match viewport_content with
  | none => { has_viewport := false, content := none, is_responsive := false }
  | some c =>
    let has_width := containsSub c "width=device-width"
    let has_initial_scale := containsSub c "initial-scale=1"
    let has_user_scalable_no :=
      containsSub c "user-scalable=no" || containsSub c "maximum-scale=1"
    { has_viewport := true, content := some c, has_width := has_width,
      has_initial_scale := has_initial_scale, prevents_zooming := has_user_scalable_no,
      is_responsive := has_width && has_initial_scale,
      issues := if has_width && has_initial_scale then [] else ["Неоптимальные настройки viewport"] }

/-- The observations `MobileAnalyzer.analyze` feeds into its score. -/
structure MobileObservations where
  viewport : ViewportResult
  adequate_sizing : Bool
  font_potential_issues : Bool
  has_responsive_images : Bool
  has_media_queries : Bool

/-- The `score_components` list of `MobileAnalyzer.analyze` (lines 74-80):
responsive viewport 30, adequate touch targets 20, no font issues 15,
responsive images 15, media queries 20. -/
def mobile_score_components (o : MobileObservations) : List ℤ :=
  [if o.viewport.is_responsive then 30 else 0,
   if o.adequate_sizing then 20 else 0,
   if !o.font_potential_issues then 15 else 0,
   if o.has_responsive_images then 15 else 0,
   if o.has_media_queries then 20 else 0]

/-- The `mobile_score` of `MobileAnalyzer.analyze`: sum of the weighted
boolean components. -/
def mobile_score (o : MobileObservations) : ℤ := (mobile_score_components o).sum

/-! ## KeywordOptimizationAnalyzer -/

/-- The page zones `_analyze_keyword_placement` reads from the soup: the
title string, the first H1 text, all H2 texts, the `og:url` content, the
first paragraph text, and all image alt texts.  Missing elements are the
empty string, matching the guarded extractions of the source. -/
structure PlacementZones where
  title : String
  h1_text : String
  h2_texts : List String
  url : String
  first_p_text : String
  alt_texts : List String

/-- The result of `_analyze_keyword_placement`: the keywords found in each
zone and the rounded weighted placement score. -/
structure PlacementResult where
  keywords_in_title : List String
  keywords_in_h1 : List String
  keywords_in_h2 : List String
  keywords_in_url : List String
  keywords_in_first_p : List String
  keywords_in_alt : List String
  placement_score : ℤ

/-- The method `KeywordOptimizationAnalyzer._analyze_keyword_placement` (lines
158-243): check the top-5 detected keywords against six zones and weight
the zone percentages (title 30%, H1 20%, H2 15%, URL 15%, first paragraph
10%, alt text 10%).  With no detected keywords the guarded computation is
skipped and the score stays 0. -/
def analyze_keyword_placement (z : PlacementZones) (detected_keywords : List String) :
    PlacementResult :=
  let primary_keywords := detected_keywords.take 5
  let title_lower := pyLower z.title
  let keywords_in_title := primary_keywords.filter (fun k => containsSub title_lower k)
  let h1_text := pyLower z.h1_text
  let h2_texts := z.h2_texts.map pyLower
  let keywords_in_h1 := primary_keywords.filter (fun k => containsSub h1_text k)
  let keywords_in_h2 := primary_keywords.filter (fun k => h2_texts.any (fun h => containsSub h k))
  let url := pyLower z.url
  let keywords_in_url := primary_keywords.filter (fun k => containsSub url k)
  let first_p_text := pyLower z.first_p_text
  let keywords_in_first_p := primary_keywords.filter (fun k => containsSub first_p_text k)
  let alt_texts := z.alt_texts.map pyLower
  let keywords_in_alt := primary_keywords.filter (fun k => alt_texts.any (fun a => containsSub a k))
  let placement_score : ℚ :=
    if primary_keywords.isEmpty then 0
    else
      let n : ℚ := (primary_keywords.length : ℕ)
      let title_percentage := (keywords_in_title.length : ℚ) / n * 100
      let h1_percentage := (keywords_in_h1.length : ℚ) / n * 100
      let h2_percentage := (keywords_in_h2.length : ℚ) / n * 100
      let url_percentage := (keywords_in_url.length : ℚ) / n * 100
      let p1_percentage := (keywords_in_first_p.length : ℚ) / n * 100
      let alt_percentage := (keywords_in_alt.length : ℚ) / n * 100
      title_percentage * (3/10) + h1_percentage * (1/5) + h2_percentage * (3/20) +
        url_percentage * (3/20) + p1_percentage * (1/10) + alt_percentage * (1/10)
  { keywords_in_title := keywords_in_title, keywords_in_h1 := keywords_in_h1,
    keywords_in_h2 := keywords_in_h2, keywords_in_url := keywords_in_url,
    keywords_in_first_p := keywords_in_first_p, keywords_in_alt := keywords_in_alt,
    placement_score := round placement_score }

/-- The method `KeywordOptimizationAnalyzer._calculate_keyword_score` (lines 407-430),
translated statement by statement as a chain of deductions from 100,
clamped at the end. -/
def calculate_keyword_score (has_meta_keywords : Bool) (placement_score : ℤ)
    (has_keyword_stuffing : Bool) (issues : List String) : ℤ :=
  let score : ℤ := 100
  let score := if !has_meta_keywords then score - 5 else score
  let score := if placement_score < 50 then score - 20
    else if placement_score < 70 then score - 10 else score
  let score := if has_keyword_stuffing then score - 15 else score
  let score := score - (issues.length : ℤ) * 5
  max 0 (min 100 score)

/-- The wording of the claim for the keyword score: start at 100, subtract 5 for
missing meta keywords, 20 or 10 for the placement tiers, 15 for stuffing,
5 per issue, then clamp to `[0, 100]`, as one arithmetic expression. -/
def keyword_score_spec (has_meta_keywords : Bool) (placement_score : ℤ)
    (has_keyword_stuffing : Bool) (issues : List String) : ℤ :=
  max 0 (min 100
    (100 - (if has_meta_keywords then 0 else 5)
         - (if placement_score < 50 then 20 else if placement_score < 70 then 10 else 0)
         - (if has_keyword_stuffing then 15 else 0)
         - (issues.length : ℤ) * 5))

/-- The method `KeywordOptimizationAnalyzer._generate_recommendations` (lines 371-405):
issue-driven recommendations followed by the four general ones.  The inputs
are the fields the source reads from its argument dictionaries. -/
def generate_keyword_recommendations (issues : List String) (placement_score : ℤ)
    (total_words : ℕ) (has_meta_keywords : Bool) (alt_count : ℕ) : List String :=
  let issueRecs := issues.filterMap (fun issue =>
    let l := pyLower issue
    if containsSub l "мета-ключевые слова не соответствуют" then
      some "Обновите мета-ключевые слова, чтобы они соответствовали фактическому содержимому страницы."
    else if containsSub l "отсутствуют в заголовке" then
      some "Добавьте основные ключевые слова в заголовок страницы (title)."
    else if containsSub l "отсутствуют в основном заголовке" then
      some "Включите основные ключевые слова в тег H1."
    else if containsSub l "переоптимизированное использование" then
      some "Уменьшите плотность ключевых слов, сделайте текст более естественным."
    else if containsSub l "каннибализация ключевых слов" then
      some "Выберите одно основное ключевое слово для страницы и оптимизируйте для него."
    else none)
  issueRecs ++
    (if placement_score < 50 then
      ["Улучшите размещение ключевых слов в важных элементах страницы (заголовок, H1, H2, первый абзац)."]
     else []) ++
    (if total_words < 300 then
      ["Добавьте больше содержимого с соответствующими ключевыми словами для улучшения релевантности."]
     else []) ++
    (if !has_meta_keywords then
      ["Добавьте мета-тег keywords с релевантными ключевыми словами."]
     else []) ++
    (if alt_count = 0 then
      ["Включите ключевые слова в атрибуты alt изображений, где это уместно."]
     else [])

/-! ## The aggregator (`analyze_seo` in `app/services/analyzer.py`) -/

/-- JSON-like values, enough to mirror the report dictionaries. -/
inductive JVal where
  | s (v : String)
  | i (v : ℤ)
  | strs (v : List String)
  | dict (fields : List (String × JVal))
deriving Repr

/-- What the `analyze` method of one analyzer returns: its metric fields plus a
`recommendations` list on success, or the `{"error": message}` dictionary
produced by the `except` clause. -/
inductive AnalyzerResult where
  | ok (data : List (String × JVal)) (recommendations : List String)
  | err (msg : String)
deriving Repr

/-- The `try/except` wrapper at each analyzer boundary: a successful body
becomes the result dictionary, an exception becomes `{"error": prefix+msg}`
(each analyzer has its own message prefix). -/
def run_analyzer (errPrefix : String)
    (body : Except String (List (String × JVal) × List String)) : AnalyzerResult :=
  match body with
  | .ok (data, recs) => .ok data recs
  | .error e => .err (errPrefix ++ e)

/-- The `recommendations` key of an analyzer result, if present — the error
dictionary has none, which is what the membership test on the recommendations key checks. -/
def AnalyzerResult.recsKey : AnalyzerResult → Option (List String)
  | .ok _ recs => some recs
  | .err _ => none

/-- An analyzer result as the dictionary stored in the metrics of the report. -/
def AnalyzerResult.toJVal : AnalyzerResult → JVal
  | .ok data recs => .dict (data ++ [("recommendations", .strs recs)])
  | .err m => .dict [("error", .s m)]

/-- The recommendation merge of `analyze_seo` (lines 869-889): extend an
initially empty list with the `recommendations` of each analyzer when that key
is present, then with the PageSpeed recommendations. -/
def collect_recommendations (meta content technical mobile : Option (List String))
    (pagespeed : List String) : List String :=
  let all : List String := []
  let all := match meta with | some r => all ++ r | none => all
  let all := match content with | some r => all ++ r | none => all
  let all := match technical with | some r => all ++ r | none => all
  let all := match mobile with | some r => all ++ r | none => all
  all ++ pagespeed

/-- The report dictionary returned by `analyze_seo` (lines 920-939).  The
scalar metrics extracted from the soup and from the meta result (title,
description, keywords, prompt, tag lists, link counts) are passed in as
arguments; the structure of the dictionary is the literal of the source. -/
def analyze_seo_report (meta content technical mobile : AnalyzerResult)
    (pagespeed_recommendations : List String) (pagespeed : JVal)
    (description keywords prompt title : String)
    (h1_tags h2_tags : List String)
    (img_without_alt internal_links external_links : ℤ) : List (String × JVal) :=
  [("description", .s description),
   ("keywords", .s keywords),
   ("prompt", .s prompt),
   ("recommendations", .strs (collect_recommendations meta.recsKey content.recsKey
      technical.recsKey mobile.recsKey pagespeed_recommendations)),
   ("metrics", .dict
     [("title", .s title),
      ("h1_tags", .strs h1_tags),
      ("h2_tags", .strs h2_tags),
      ("img_without_alt", .i img_without_alt),
      ("internal_links", .i internal_links),
      ("external_links", .i external_links),
      ("pagespeed", pagespeed),
      ("meta_analysis", meta.toJVal),
      ("content_analysis", content.toJVal),
      ("technical_analysis", technical.toJVal),
      ("mobile_analysis", mobile.toJVal)])]

/-- The top-level keys of a report dictionary. -/
def reportKeys (r : List (String × JVal)) : List String := r.map Prod.fst

/-- The keys of the `metrics` sub-dictionary of a report. -/
def metricsKeys (r : List (String × JVal)) : List String :=
  match r.lookup "metrics" with
  | some (.dict m) => m.map Prod.fst
  | _ => []

/-! ## Helper lemmas -/

/-- Rounding keeps a rational in `[0, 100]` inside the integer range
`[0, 100]`. -/
lemma round_range {q : ℚ} (h0 : 0 ≤ q) (h1 : q ≤ 100) :
    0 ≤ round q ∧ round q ≤ 100 := by
  rw [round_eq]
  constructor
  · exact Int.le_floor.mpr (by push_cast; linarith)
  · have h : (⌊q + 1 / 2⌋ : ℤ) < 101 := Int.floor_lt.mpr (by push_cast; linarith)
    omega

/-- The loading optimization score is in `[0, 100]`. -/
lemma loading_optimization_score_range (o : LoadingObservations) :
    0 ≤ loading_optimization_score o ∧ loading_optimization_score o ≤ 100 := by
  dsimp only [loading_optimization_score]
  set s : ℚ := min 100 (((o.async_scripts + o.defer_scripts : ℕ) : ℚ) /
      ((max 1 o.total_scripts : ℕ) : ℚ) * 100) with hs
  have hs0 : 0 ≤ s := by
    apply le_min (by norm_num)
    positivity
  have hs1 : s ≤ 100 := min_le_left _ _
  apply round_range <;> split_ifs <;> linarith

/-- The internal-link score is in `[0, 100]`. -/
lemma link_score_range (u e or : ℕ) : 0 ≤ link_score u e or ∧ link_score u e or ≤ 100 := by
  dsimp only [link_score]
  split_ifs <;> omega

/-- Bounds of the weighted zone-percentage blend used by the keyword
placement score. -/
lemma weighted_placement_range (n c1 c2 c3 c4 c5 c6 : ℕ) (hn : 1 ≤ n)
    (h1 : c1 ≤ n) (h2 : c2 ≤ n) (h3 : c3 ≤ n) (h4 : c4 ≤ n) (h5 : c5 ≤ n) (h6 : c6 ≤ n) :
    0 ≤ (c1 : ℚ) / n * 100 * (3/10) + (c2 : ℚ) / n * 100 * (1/5) +
        (c3 : ℚ) / n * 100 * (3/20) + (c4 : ℚ) / n * 100 * (3/20) +
        (c5 : ℚ) / n * 100 * (1/10) + (c6 : ℚ) / n * 100 * (1/10) ∧
      (c1 : ℚ) / n * 100 * (3/10) + (c2 : ℚ) / n * 100 * (1/5) +
        (c3 : ℚ) / n * 100 * (3/20) + (c4 : ℚ) / n * 100 * (3/20) +
        (c5 : ℚ) / n * 100 * (1/10) + (c6 : ℚ) / n * 100 * (1/10) ≤ 100 := by
  have hn0 : (0 : ℚ) < n := by exact_mod_cast hn
  have b : ∀ c : ℕ, c ≤ n → 0 ≤ (c : ℚ) / n ∧ (c : ℚ) / n ≤ 1 := by
    intro c hc
    constructor
    · positivity
    · rw [div_le_one hn0]
      exact_mod_cast hc
  obtain ⟨l1, r1⟩ := b c1 h1
  obtain ⟨l2, r2⟩ := b c2 h2
  obtain ⟨l3, r3⟩ := b c3 h3
  obtain ⟨l4, r4⟩ := b c4 h4
  obtain ⟨l5, r5⟩ := b c5 h5
  obtain ⟨l6, r6⟩ := b c6 h6
  constructor <;> nlinarith

/-! ## Theorems for the claims -/

/-- C1: for every input, the own score of each analyzer — `meta_score`,
`readability_score`, `technical_score`, `mobile_score`, `keyword_score` —
lies in the integer range `[0, 100]`. -/
theorem C1_analyzer_scores_in_range :
    (∀ o : MetaObservations, 0 ≤ meta_score o ∧ meta_score o ≤ 100) ∧
    (∀ text : String,
      0 ≤ calculate_readability_score text ∧ calculate_readability_score text ≤ 100) ∧
    (∀ o : TechnicalObservations, 0 ≤ technical_score o ∧ technical_score o ≤ 100) ∧
    (∀ o : MobileObservations, 0 ≤ mobile_score o ∧ mobile_score o ≤ 100) ∧
    (∀ (hm : Bool) (ps : ℤ) (st : Bool) (iss : List String),
      0 ≤ calculate_keyword_score hm ps st iss ∧ calculate_keyword_score hm ps st iss ≤ 100) := by
  refine ⟨?_, ?_, ?_, ?_, ?_⟩
  · intro o
    dsimp only [meta_score, List.sum_cons, List.sum_nil]
    split_ifs <;> omega
  · intro text
    dsimp only [calculate_readability_score]
    split_ifs with h
    · norm_num
    · have hlen : 1 ≤ (pySplit text).length := by
        rcases hp : pySplit text with _ | ⟨w, ws⟩
        · rw [hp] at h; simp at h
        · simp
      have hmax : max 1 (pySplit text).length = (pySplit text).length :=
        max_eq_right hlen
      have hfil : ((pySplit text).filter fun w => decide (count_syllables w ≥ 3)).length ≤
          (pySplit text).length := List.length_filter_le _ _
      have hq0 : (0 : ℚ) <
          ((max 1 (pySplit text).length : ℕ) : ℚ) := by
        rw [hmax]; exact_mod_cast hlen
      have hple : (((pySplit text).filter fun w => decide (count_syllables w ≥ 3)).length : ℚ) /
          ((max 1 (pySplit text).length : ℕ) : ℚ) ≤ 1 := by
        rw [div_le_one hq0, hmax]
        exact_mod_cast hfil
      have hp0 : 0 ≤ (((pySplit text).filter fun w => decide (count_syllables w ≥ 3)).length : ℚ) /
          ((max 1 (pySplit text).length : ℕ) : ℚ) :=
        div_nonneg (Nat.cast_nonneg _) (Nat.cast_nonneg _)
      exact round_range (by linarith) (by linarith)
  · intro o
    dsimp only [technical_score, List.sum_cons, List.sum_nil]
    obtain ⟨hl0, hl1⟩ := loading_optimization_score_range o.loading
    obtain ⟨hk0, hk1⟩ := link_score_range o.unique_internal o.external_count o.orphaned_count
    have hl0q : (0 : ℚ) ≤ (loading_optimization_score o.loading : ℚ) := by exact_mod_cast hl0
    have hl1q : (loading_optimization_score o.loading : ℚ) ≤ 100 := by exact_mod_cast hl1
    have hk0q : (0 : ℚ) ≤
        (link_score o.unique_internal o.external_count o.orphaned_count : ℚ) := by
      exact_mod_cast hk0
    have hk1q : (link_score o.unique_internal o.external_count o.orphaned_count : ℚ) ≤ 100 := by
      exact_mod_cast hk1
    apply round_range <;> split_ifs <;> linarith
  · intro o
    dsimp only [mobile_score, mobile_score_components, List.sum_cons, List.sum_nil]
    split_ifs <;> omega
  · intro hm ps st iss
    dsimp only [calculate_keyword_score]
    constructor
    · exact le_max_left 0 _
    · exact max_le (by norm_num) (min_le_left _ _)

/-- C6: the keyword score starts at 100, subtracts 5 for missing meta
keywords, 20 below placement 50 or else 10 below 70, 15 for stuffing, and
5 per detected issue, then clamps to `[0, 100]` — the sequential deduction
chain of the source equals the arithmetic expression of the claim. -/
theorem C6_keyword_score_formula (has_meta_keywords : Bool) (placement_score : ℤ)
    (has_keyword_stuffing : Bool) (issues : List String) :
    calculate_keyword_score has_meta_keywords placement_score has_keyword_stuffing issues =
      keyword_score_spec has_meta_keywords placement_score has_keyword_stuffing issues := by
  dsimp only [calculate_keyword_score, keyword_score_spec]
  cases has_meta_keywords <;> cases has_keyword_stuffing <;> simp <;> split_ifs <;> omega

/-- C10: the keyword placement analysis is total — with an empty detected
keyword list it returns placement score 0 (the division is guarded away),
and for every input the placement score lies in `[0, 100]`. -/
theorem C10_placement_total_and_bounded :
    (∀ z : PlacementZones, (analyze_keyword_placement z []).placement_score = 0) ∧
    (∀ (z : PlacementZones) (detected : List String),
      0 ≤ (analyze_keyword_placement z detected).placement_score ∧
        (analyze_keyword_placement z detected).placement_score ≤ 100) := by
  constructor
  · intro z
    simp [analyze_keyword_placement]
  · intro z detected
    dsimp only [analyze_keyword_placement]
    split_ifs with h
    · simp
    · have hn : 1 ≤ (detected.take 5).length := by
        rcases ht : detected.take 5 with _ | ⟨k, ks⟩
        · rw [ht] at h; simp at h
        · simp
      apply round_range
      · exact (weighted_placement_range (detected.take 5).length _ _ _ _ _ _ hn
          (List.length_filter_le _ _) (List.length_filter_le _ _) (List.length_filter_le _ _)
          (List.length_filter_le _ _) (List.length_filter_le _ _) (List.length_filter_le _ _)).1
      · exact (weighted_placement_range (detected.take 5).length _ _ _ _ _ _ hn
          (List.length_filter_le _ _) (List.length_filter_le _ _) (List.length_filter_le _ _)
          (List.length_filter_le _ _) (List.length_filter_le _ _) (List.length_filter_le _ _)).2

/-- C5: the main-content selection tries `<main>`, id `content`, id
`main-content`, class `content`, class `main-content`, `<article>` in
exactly this order, takes the first present candidate, and falls back to
`<body>` and then to the whole document. -/
theorem C5_main_content_selection (soup : Elem) :
    extract_main_content soup = extract_main_content_spec soup := by
  dsimp only [extract_main_content, extract_main_content_spec]
  rcases h1 : soupFindTag soup "main" with _ | e1 <;>
    rcases h2 : soupFindId soup "content" with _ | e2 <;>
    rcases h3 : soupFindId soup "main-content" with _ | e3 <;>
    rcases h4 : soupFindClass soup "content" with _ | e4 <;>
    rcases h5 : soupFindClass soup "main-content" with _ | e5 <;>
    rcases h6 : soupFindTag soup "article" with _ | e6 <;>
    simp [List.findSome?_cons, h1, h2, h3, h4, h5, h6]

mutual
/-- On a tree without any of the extracted tags, the extraction loop of
`_extract_text_content` changes nothing. -/
theorem stripBanned_of_bannedFree : ∀ d : Elem, bannedFree d = true → stripBanned d = d
  | .text _, _ => by simp [stripBanned]
  | .node t a cs, h => by
    have h2 : bannedFreeList cs = true := by
      simp only [bannedFree, Bool.and_eq_true] at h
      exact h.2
    simp only [stripBanned]
    rw [stripBannedList_of_bannedFreeList cs h2]

/-- Forest version of `stripBanned_of_bannedFree`. -/
theorem stripBannedList_of_bannedFreeList :
    ∀ l : List Elem, bannedFreeList l = true → stripBannedList l = l
  | [], _ => by simp [stripBannedList]
  | .text s :: cs, h => by
    have h2 : bannedFreeList cs = true := by
      simp only [bannedFreeList, Bool.and_eq_true] at h
      exact h.2
    simp only [stripBannedList]
    rw [stripBannedList_of_bannedFreeList cs h2]
  | .node t a cs2 :: cs, h => by
    have h1 : bannedFree (.node t a cs2) = true := by
      simp only [bannedFreeList, Bool.and_eq_true] at h
      exact h.1
    have h2 : bannedFreeList cs = true := by
      simp only [bannedFreeList, Bool.and_eq_true] at h
      exact h.2
    have ht : bannedTags.contains t = false := by
      simp only [bannedFree, Bool.and_eq_true] at h1
      have hb := h1.1
      cases hc : bannedTags.contains t
      · rfl
      · rw [hc] at hb; exact absurd hb (by decide)
    have hcs2 : bannedFreeList cs2 = true := by
      simp only [bannedFree, Bool.and_eq_true] at h1
      exact h1.2
    simp only [stripBannedList, ht]
    rw [stripBannedList_of_bannedFreeList cs2 hcs2,
      stripBannedList_of_bannedFreeList cs h2]
    simp
end

/-- A small page whose body holds a `<script>` and a paragraph. -/
def sampleDocWithScript : Elem :=
  .node "[document]" []
    [.node "html" []
      [.node "body" []
        [.node "script" [] [.text "var x = 1;"],
         .node "p" [] [.text "hi"]]]]

/-- C4 fails on the code: the text extraction of the keyword analyzer removes
the `<script>` element from the shared parsed tree, so running it does not
leave the Document unchanged. -/
theorem C4_counterexample :
    (extract_text_content sampleDocWithScript).2 ≠ sampleDocWithScript := by
  have hval : (extract_text_content sampleDocWithScript).2 =
      .node "[document]" []
        [.node "html" []
          [.node "body" []
            [.node "p" [] [.text "hi"]]]] := by
    simp [extract_text_content, sampleDocWithScript, stripBanned, stripBannedList, bannedTags]
  intro h
  rw [hval] at h
  simp [sampleDocWithScript] at h

/-- C4 amended: the text extraction of the keyword analyzer removes
`script`/`style`/`noscript`/`iframe`/`header`/`footer`/`nav` elements from
the parsed tree; on a document containing none of those elements it leaves
the tree unchanged. -/
theorem C4_no_mutation_without_stripped_tags (d : Elem) (h : bannedFree d = true) :
    (extract_text_content d).2 = d := by
  dsimp only [extract_text_content]
  exact stripBanned_of_bannedFree d h

/-- A script-free page. -/
def sampleCleanDoc : Elem :=
  .node "[document]" []
    [.node "html" []
      [.node "body" []
        [.node "p" [] [.text "hi"]]]]

/-- Witness for the amended C4 at a concrete banned-tag-free document. -/
theorem C4_witness :
    bannedFree sampleCleanDoc = true ∧
      (extract_text_content sampleCleanDoc).2 = sampleCleanDoc :=
  ⟨by simp [sampleCleanDoc, bannedFree, bannedFreeList, bannedTags],
   C4_no_mutation_without_stripped_tags sampleCleanDoc
     (by simp [sampleCleanDoc, bannedFree, bannedFreeList, bannedTags])⟩

/-- The stuffing issue always starts with the letter `В`. -/
lemma titleStuffingIssue_head (w : String) :
    (titleStuffingIssue w).data.head? = some 'В' := by
  dsimp only [titleStuffingIssue]
  rw [String.data_append, String.data_append, List.append_assoc,
    List.head?_append_of_ne_nil _ (by decide)]
  decide

/-- A stuffing issue is never the too-short issue. -/
lemma titleStuffingIssue_ne_tooShort (w : String) :
    titleStuffingIssue w ≠ titleTooShortIssue := by
  intro h
  have h2 : (titleStuffingIssue w).data.head? = titleTooShortIssue.data.head? :=
    congrArg (fun s => s.data.head?) h
  rw [titleStuffingIssue_head] at h2
  exact absurd h2 (by decide)

/-- A stuffing issue is never the too-long issue. -/
lemma titleStuffingIssue_ne_tooLong (w : String) :
    titleStuffingIssue w ≠ titleTooLongIssue := by
  intro h
  have h2 : (titleStuffingIssue w).data.head? = titleTooLongIssue.data.head? :=
    congrArg (fun s => s.data.head?) h
  rw [titleStuffingIssue_head] at h2
  exact absurd h2 (by decide)

/-- C8: a missing title yields the add-a-title issue; a title of length 10
to 60 yields no title-length issue; a present title shorter than 10
characters yields the too-short issue; a title longer than 60 characters
yields the too-long issue. -/
theorem C8_title_length_issues :
    (titleMissingIssue ∈ (analyze_title none).issues) ∧
    (∀ t : String, 10 ≤ t.length → t.length ≤ 60 →
      titleTooShortIssue ∉ (analyze_title (some t)).issues ∧
        titleTooLongIssue ∉ (analyze_title (some t)).issues) ∧
    (∀ t : String, 1 ≤ t.length → t.length < 10 →
      titleTooShortIssue ∈ (analyze_title (some t)).issues) ∧
    (∀ t : String, 60 < t.length →
      titleTooLongIssue ∈ (analyze_title (some t)).issues) := by
  refine ⟨by simp [analyze_title], ?_, ?_, ?_⟩
  · intro t h10 h60
    dsimp only [analyze_title]
    rw [if_neg (by omega : ¬t.length = 0), if_neg (by omega : ¬t.length < 10),
      if_neg (by omega : ¬t.length > 60)]
    dsimp only
    rcases hs : stuffedWord (pySplit (pyLower t)) with _ | w
    · simp
    · simp only [List.nil_append, List.mem_singleton]
      exact ⟨(titleStuffingIssue_ne_tooShort w).symm, (titleStuffingIssue_ne_tooLong w).symm⟩
  · intro t h1 h10
    dsimp only [analyze_title]
    rw [if_neg (by omega : ¬t.length = 0), if_pos h10]
    simp
  · intro t h60
    dsimp only [analyze_title]
    rw [if_neg (by omega : ¬t.length = 0), if_neg (by omega : ¬t.length < 10),
      if_pos h60]
    simp

/-- Witness for C8 at concrete titles: a 5-character title gets the
too-short issue, an in-range title gets no length issue, a 61-character
title gets the too-long issue. -/
theorem C8_witness :
    (titleTooShortIssue ∈ (analyze_title (some "Hello")).issues) ∧
    (titleTooShortIssue ∉ (analyze_title (some "A welcoming title")).issues ∧
      titleTooLongIssue ∉ (analyze_title (some "A welcoming title")).issues) ∧
    (titleTooLongIssue ∈
      (analyze_title (some
        "An exceedingly verbose page title that just keeps on going on")).issues) :=
  ⟨C8_title_length_issues.2.2.1 "Hello" (by decide) (by decide),
   C8_title_length_issues.2.1 "A welcoming title" (by decide) (by decide),
   C8_title_length_issues.2.2.2
     "An exceedingly verbose page title that just keeps on going on" (by decide)⟩

/-- C9: with a viewport meta tag present, `is_responsive` holds exactly
when the content attribute contains both `width=device-width` and
`initial-scale=1`; and a responsive viewport contributes exactly 30 points
to the mobile score. -/
theorem C9_viewport_responsive :
    (∀ c : String,
      (check_viewport (some c)).is_responsive =
        (containsSub c "width=device-width" && containsSub c "initial-scale=1")) ∧
    (∀ o : MobileObservations, o.viewport.is_responsive = true →
      mobile_score o = 30 +
        ((if o.adequate_sizing then 20 else 0) +
         ((if !o.font_potential_issues then 15 else 0) +
          ((if o.has_responsive_images then 15 else 0) +
           (if o.has_media_queries then 20 else 0))))) := by
  constructor
  · intro c
    dsimp only [check_viewport]
  · intro o h
    dsimp only [mobile_score, mobile_score_components, List.sum_cons, List.sum_nil]
    rw [if_pos h]
    omega

/-- Witness for C9: the canonical responsive viewport content makes
`is_responsive` true and puts the 30 viewport points into the mobile
score. -/
theorem C9_witness :
    (check_viewport (some "width=device-width, initial-scale=1")).is_responsive = true ∧
      mobile_score
        { viewport := check_viewport (some "width=device-width, initial-scale=1"),
          adequate_sizing := false, font_potential_issues := true,
          has_responsive_images := false, has_media_queries := false } = 30 := by
  have hresp : (check_viewport (some "width=device-width, initial-scale=1")).is_responsive
      = true :=
    (C9_viewport_responsive.1 "width=device-width, initial-scale=1").trans (by decide)
  refine ⟨hresp, ?_⟩
  rw [C9_viewport_responsive.2 _ hresp]
  simp

/-- C3: an exception inside one analyzer is caught at the analyzer
boundary and becomes the error dictionary for the slot of that analyzer only;
a failed analyzer contributes no recommendations to the merge, and the
aggregate report is still produced with its standard shape. -/
theorem C3_analyzer_failure_isolated :
    (∀ errPrefix e : String,
      run_analyzer errPrefix (Except.error e) = AnalyzerResult.err (errPrefix ++ e)) ∧
    (∀ m : String, (AnalyzerResult.err m).recsKey = none) ∧
    (∀ m : String, (AnalyzerResult.err m).toJVal = JVal.dict [("error", JVal.s m)]) ∧
    (∀ (m : String) (c t mo : Option (List String)) (ps : List String),
      collect_recommendations (AnalyzerResult.err m).recsKey c t mo ps =
        c.getD [] ++ t.getD [] ++ mo.getD [] ++ ps) ∧
    (∀ (meta content technical mobile : AnalyzerResult) (psr : List String) (ps : JVal)
        (d k p ti : String) (h1 h2 : List String) (iwa il el : ℤ),
      reportKeys (analyze_seo_report meta content technical mobile psr ps d k p ti
          h1 h2 iwa il el) =
        ["description", "keywords", "prompt", "recommendations", "metrics"]) := by
  refine ⟨fun _ _ => rfl, fun _ => rfl, fun _ => rfl, ?_, fun _ _ _ _ _ _ _ _ _ _ _ _ _ _ _ => rfl⟩
  intro m c t mo ps
  dsimp only [collect_recommendations, AnalyzerResult.recsKey]
  rcases c <;> rcases t <;> rcases mo <;> simp

/-- The report of one concrete aggregator run (all four analyzers
succeed with empty payloads, no PageSpeed data). -/
def sampleReport : List (String × JVal) :=
  analyze_seo_report (.ok [] []) (.ok [] []) (.ok [] []) (.ok [] []) [] (JVal.dict [])
    "d" "k" "p" "t" [] [] 0 1 1

/-- C2 fails on the code: the report of a concrete run has no
`overall_score` key, neither at top level nor among the metrics. -/
theorem C2_counterexample :
    "overall_score" ∉ reportKeys sampleReport ∧
      "overall_score" ∉ metricsKeys sampleReport := by
  constructor <;> decide

/-- C2 amended: the report returned by the aggregator contains no
`overall_score` field at all — its top-level keys are exactly
`description`, `keywords`, `prompt`, `recommendations`, `metrics`, and no
weighted blend of the sub-scores is computed anywhere. -/
theorem C2_report_has_no_overall_score
    (meta content technical mobile : AnalyzerResult) (psr : List String) (ps : JVal)
    (d k p ti : String) (h1 h2 : List String) (iwa il el : ℤ) :
    reportKeys (analyze_seo_report meta content technical mobile psr ps d k p ti
        h1 h2 iwa il el) =
      ["description", "keywords", "prompt", "recommendations", "metrics"] ∧
    "overall_score" ∉ reportKeys (analyze_seo_report meta content technical mobile psr ps
        d k p ti h1 h2 iwa il el) ∧
    "overall_score" ∉ metricsKeys (analyze_seo_report meta content technical mobile psr ps
        d k p ti h1 h2 iwa il el) := by
  refine ⟨rfl, ?_, ?_⟩
  · intro hmem
    rw [show reportKeys (analyze_seo_report meta content technical mobile psr ps
        d k p ti h1 h2 iwa il el) =
      ["description", "keywords", "prompt", "recommendations", "metrics"] from rfl] at hmem
    exact absurd hmem (by decide)
  · intro hmem
    rw [show metricsKeys (analyze_seo_report meta content technical mobile psr ps
        d k p ti h1 h2 iwa il el) =
      ["title", "h1_tags", "h2_tags", "img_without_alt", "internal_links",
       "external_links", "pagespeed", "meta_analysis", "content_analysis",
       "technical_analysis", "mobile_analysis"] from rfl] at hmem
    exact absurd hmem (by decide)

/-- C7 fails on the code: the aggregator merges only the meta, content,
technical and mobile recommendations before the PageSpeed ones; the keyword
analyzer (which on a blank page emits four recommendations) is never
consulted, so the merge differs from the claimed six-part concatenation. -/
theorem C7_counterexample :
    collect_recommendations (some ["m"]) (some ["c"]) (some ["t"]) (some ["mo"]) ["p"] ≠
      ["m"] ++ ["c"] ++ ["t"] ++ ["mo"] ++
        generate_keyword_recommendations [] 0 0 false 0 ++ ["p"] := by
  decide

/-- C7 amended: the flattened recommendations are the concatenation, in
analyzer-declaration order, of the meta, content, technical and mobile
recommendations (a slot without a `recommendations` key contributing
nothing), followed by the externally supplied performance recommendations;
the recommendations of the keyword analyzer are not part of the merge. -/
theorem C7_recommendation_order (m c t mo : Option (List String)) (ps : List String) :
    collect_recommendations m c t mo ps =
      m.getD [] ++ c.getD [] ++ t.getD [] ++ mo.getD [] ++ ps := by
  dsimp only [collect_recommendations]
  rcases m <;> rcases c <;> rcases t <;> rcases mo <;> simp
